import Mathlib

/-!
# TracingPoC: termination coordination and tracer lifecycle

A shallow embedding of `main.go`.  The program is a sequence of effects on
process-wide state (the package variable `traceProvider`, the otel globals,
the loggers, the exit status); every function of the source becomes a state
transformer on `Proc`.  What the source obtains from outside the file (the
gRPC dial, the exporter constructor, `resource.New`, the SDK's environment
resource, the provider's own `Shutdown`, the clock, the outcome of the
`select`) is read from a `World` and a `Schedule`, which the theorems quantify
over.
-/

namespace TracingPoC

/-! ## Go values -/

/-- Go `error` values: an error produced outside this file, or the result of
`fmt.Errorf` with a `%w` verb, which remembers the error it wraps. -/
inductive GoError where
  | base (msg : String)
  | wrapf (format : String) (cause : GoError)
  deriving DecidableEq, Repr

/-- The `Error()` text: `fmt.Errorf` substitutes the cause's text for `%w`. -/
def GoError.Error : GoError → String
  | .base msg => msg
  | .wrapf format cause => format.replace "%w" cause.Error

/-- The function `errors.Unwrap`. -/
def GoError.Unwrap : GoError → Option GoError
  | .base _ => none
  | .wrapf _ cause => some cause

/-- The call `fmt.Errorf(format, err)` where `format` holds one `%w`. -/
def fmtErrorf (format : String) (err : GoError) : GoError :=
  .wrapf format err

/-- The error `context.DeadlineExceeded`. -/
def DeadlineExceeded : GoError := .base "context deadline exceeded"

/-- The duration `time.Second`, in nanoseconds. -/
def Second : Nat := 1000000000

/-- A `context.Context`, as far as this program uses one: its deadline, an
absolute time in nanoseconds, when it has one. -/
structure Context where
  deadline : Option Nat
  deriving DecidableEq, Repr

/-- The context `context.Background()`: never cancelled, no deadline. -/
def Background : Context := ⟨none⟩

/-- The call `context.WithTimeout(parent, d)` made at time `now`: the deadline is
`now + d` unless the parent's deadline is earlier. -/
def WithTimeout (parent : Context) (now d : Nat) : Context :=
  match parent.deadline with
  | some cur => if cur < now + d then parent else ⟨some (now + d)⟩
  | none => ⟨some (now + d)⟩

/-- A `*grpc.ClientConn`. -/
structure ClientConn where
  target : String
  deriving DecidableEq, Repr

/-- An `*otlptrace.Exporter`, bound to the connection it was built over. -/
structure Exporter where
  conn : Option ClientConn
  deriving DecidableEq, Repr

/-- A `*resource.Resource`: a set of key-value attributes and a schema URL.  The
set is kept as a list of its entries; the order the SDK keeps them in is not
modelled. -/
structure Resource where
  attrs : List (String × String)
  schemaURL : String
  deriving DecidableEq, Repr

/-- The resource `resource.Empty()`. -/
def Resource.Empty : Resource := ⟨[], ""⟩

/-- Whether a resource has an attribute under key `k`. -/
def Resource.hasKey (r : Resource) (k : String) : Bool :=
  r.attrs.any (fun kv => kv.1 == k)

/-- What the trace SDK takes from its surroundings: `resource.Environment()` (read
from `OTEL_RESOURCE_ATTRIBUTES` and `OTEL_SERVICE_NAME`, never nil),
`resource.Default()`, and the resource `resource.Merge` answers with when the
two schema URLs conflict (releases of the SDK differ on it). -/
structure Sdk where
  environment : Resource
  defaultResource : Resource
  onSchemaConflict : Resource → Resource → Resource

/-- The function `resource.Merge(a, b)`: a nil side yields the other side (the
empty resource when both are nil); otherwise the attributes of `a` under keys
`b` does not have, then those of `b`, under the schema URL the two agree on. -/
def Merge (sdk : Sdk) (a b : Option Resource) : Resource :=
  match a, b with
  | none, none => Resource.Empty
  | none, some b => b
  | some a, none => a
  | some a, some b =>
    let combine := a.attrs.filter (fun kv => !b.hasKey kv.1) ++ b.attrs
    if a.schemaURL = "" then ⟨combine, b.schemaURL⟩
    else if b.schemaURL = "" then ⟨combine, a.schemaURL⟩
    else if a.schemaURL = b.schemaURL then ⟨combine, a.schemaURL⟩
    else sdk.onSchemaConflict a b

/-- The key `semconv.ServiceNameKey`. -/
def ServiceNameKey : String := "service.name"

/-- Sampling policies of the trace SDK. -/
inductive Sampler where
  | AlwaysSample
  | NeverSample
  | ParentBased (root : Sampler)
  deriving DecidableEq, Repr

/-- Span processors of the trace SDK, over a possibly nil exporter. -/
inductive SpanProcessor where
  | simple (exporter : Option Exporter)
  | batch (exporter : Option Exporter)
  deriving DecidableEq, Repr

/-- The constructor `trace.NewSimpleSpanProcessor`. -/
def NewSimpleSpanProcessor (exporter : Option Exporter) : SpanProcessor :=
  .simple exporter

/-- The exporter a span processor sends to. -/
def SpanProcessor.exporter : SpanProcessor → Option Exporter
  | .simple e => e
  | .batch e => e

/-- A `*trace.TracerProvider`; `id` stands for the pointer's identity.  Its
resource is never nil. -/
structure TracerProvider where
  id : Nat
  sampler : Sampler
  resource : Resource
  processors : List SpanProcessor
  deriving DecidableEq, Repr

/-- The options `trace.NewTracerProvider` is called with. -/
inductive TracerProviderOption where
  | WithSampler (s : Sampler)
  | WithResource (r : Option Resource)
  | WithSpanProcessor (sp : SpanProcessor)
  deriving DecidableEq, Repr

/-- One option applied to a provider under construction.  `WithResource r` stores
`resource.Merge(resource.Environment(), r)`, not `r` itself. -/
def TracerProviderOption.apply (sdk : Sdk) (tp : TracerProvider) :
    TracerProviderOption → TracerProvider
  | .WithSampler s => { tp with sampler := s }
  | .WithResource r => { tp with resource := Merge sdk (some sdk.environment) r }
  | .WithSpanProcessor sp => { tp with processors := tp.processors ++ [sp] }

/-- The constructor `trace.NewTracerProvider(opts...)`, allocating instance `id`:
the SDK's defaults (parent-based always-sample, the default resource, no
processor), then the options in order. -/
def NewTracerProvider (sdk : Sdk) (id : Nat) (opts : List TracerProviderOption) :
    TracerProvider :=
  opts.foldl (TracerProviderOption.apply sdk)
    { id := id, sampler := .ParentBased .AlwaysSample, resource := sdk.defaultResource,
      processors := [] }

/-- Text-map propagators. -/
inductive Propagator where
  | TraceContext
  | Baggage
  deriving DecidableEq, Repr

/-! ## The process and its environment -/

/-- The two loggers of the program: `l`, built by `log.New(os.Stdout, "", 0)`
in `main`, and the standard logger behind `log.Fatal`. -/
inductive Logger where
  | l
  | std
  deriving DecidableEq, Repr

/-- What the process does that can be observed from outside it, in order. -/
inductive Event where
  | resourceNew (ctx : Context) (attrs : List (String × String))
  | dial (ctx : Context) (target : String) (insecureCreds : Bool) (block : Bool)
  | exporterNew (ctx : Context) (conn : Option ClientConn)
  | cancel
  | setTracerProvider (tp : TracerProvider)
  | setTextMapPropagator (p : Propagator)
  | notify
  | goRun
  | println (lg : Logger) (text : String)
  | fatal (lg : Logger) (err : GoError)
  | providerShutdown (tp : TracerProvider)
  | runtimePanic
  deriving DecidableEq, Repr

/-- The process-wide state: the package variable `traceProvider`, the otel
globals, the allocation counter, the events so far and the exit code once the
process has terminated. -/
structure Proc where
  traceProvider : Option TracerProvider
  otelTracerProvider : Option TracerProvider
  otelPropagator : Option Propagator
  nextId : Nat
  trace : List Event
  exit : Option Nat
  deriving DecidableEq, Repr

/-- The state at process start: every global is nil, nothing has happened. -/
def Proc.start : Proc :=
  { traceProvider := none, otelTracerProvider := none, otelPropagator := none,
    nextId := 0, trace := [], exit := none }

/-- One more observed event. -/
def Proc.emit (s : Proc) (e : Event) : Proc :=
  { s with trace := s.trace ++ [e] }

/-- What the libraries answer.  Each answer is a Go result pair, either side of
which may be nil.  `providerShutdown` is what the teardown of a provider over
real exporters returns. -/
structure World where
  now : Nat
  sdk : Sdk
  resourceNew : Context → List (String × String) → Option Resource × Option GoError
  dial : Context → String → Option ClientConn × Option GoError
  exporterNew : Context → Option ClientConn → Option Exporter × Option GoError
  providerShutdown : TracerProvider → Option GoError

/-- How a call of the provider's own `Shutdown` ends. -/
inductive Teardown where
  | returned (err : Option GoError)
  | panicked
  deriving DecidableEq, Repr

/-- The SDK's `(*TracerProvider).Shutdown`: it shuts down each processor, which
shuts down its exporter.  On a nil `*otlptrace.Exporter` that call dereferences
nil and panics; over real exporters it returns what the world answers. -/
def TracerProvider.Shutdown (w : World) (tp : TracerProvider) : Teardown :=
  if tp.processors.any (fun sp => sp.exporter.isNone) then .panicked
  else .returned (w.providerShutdown tp)

/-- What happens while `main` waits: whether an interrupt is delivered to
`sigCh` (after `signal.Notify` has set the channel up), what `app.Run` sends on `errCh` (`none`: it never returns), and which
case the `select` takes when both channels are ready. -/
structure Schedule where
  interrupt : Bool
  appResult : Option (Option GoError)
  sigFirst : Bool

/-- The case a `select` in `main` resolves to. -/
inductive Resolution where
  | sig
  | err (e : Option GoError)
  deriving DecidableEq, Repr

/-- The `select` over `sigCh` and `errCh`: the one ready case, any of two ready
cases, and `none` when neither ever becomes ready (main blocks forever). -/
def select (sch : Schedule) : Option Resolution :=
  match sch.interrupt, sch.appResult with
  | true, some r => if sch.sigFirst then some .sig else some (.err r)
  | true, none => some .sig
  | false, some r => some (.err r)
  | false, none => none

/-- The call `lg.Println(text)`. -/
def Println (lg : Logger) (text : String) (s : Proc) : Proc :=
  s.emit (.println lg text)

/-- The call `lg.Fatal(err)`: the error is written, then `os.Exit(1)`. -/
def Fatal (lg : Logger) (err : GoError) (s : Proc) : Proc :=
  { s.emit (.fatal lg err) with exit := some 1 }

/-- A runtime panic nobody recovers: the process ends with code 2. -/
def RuntimePanic (s : Proc) : Proc :=
  { s.emit .runtimePanic with exit := some 2 }

/-- A value that is computed and dropped. -/
def discard {α : Type} (_ : α) (s : Proc) : Proc := s

/-- A return from `main`: the process ends with code 0, unless it has ended. -/
def returnFromMain (s : Proc) : Proc :=
  match s.exit with
  | some _ => s
  | none => { s with exit := some 0 }

/-! ## The functions of `main.go` -/

/-- Source `addAttributes`: the result pair of `resource.New` with the service
name attribute, handed on as it is. -/
def addAttributes (w : World) (ctx : Context) (name : String) (s : Proc) :
    (Option Resource × Option GoError) × Proc :=
  let attrs := [(ServiceNameKey, name)]
  (w.resourceNew ctx attrs, s.emit (.resourceNew ctx attrs))

/-- Source `connectToExporter`. -/
def connectToExporter (w : World) (ctx : Context) (url : String) (s : Proc) :
    (Option Exporter × Option GoError) × Proc :=
  let ctx := WithTimeout ctx w.now (3 * Second)
  let s := s.emit (.dial ctx url true true)
  match w.dial ctx url with
  | (_, some err) => ((none, some (fmtErrorf "failed to dial: %w" err)), s.emit .cancel)
  | (conn, none) =>
    let s := s.emit (.exporterNew ctx conn)
    match w.exporterNew ctx conn with
    | (_, some err) => ((none, some (fmtErrorf "failed to connect: %w" err)), s.emit .cancel)
    | (traceExporter, none) => ((traceExporter, none), s.emit .cancel)

/-- Source `registerExporterWithTraceprovider`. -/
def registerExporterWithTraceprovider (sdk : Sdk) (traceExporter : Option Exporter)
    (res : Option Resource) (s : Proc) : Proc :=
  let bsp := NewSimpleSpanProcessor traceExporter
  let tp := NewTracerProvider sdk s.nextId
    [.WithSampler .AlwaysSample, .WithResource res, .WithSpanProcessor bsp]
  let s := { s with traceProvider := some tp, nextId := s.nextId + 1 }
  let s := { s.emit (.setTracerProvider tp) with otelTracerProvider := some tp }
  { s.emit (.setTextMapPropagator .TraceContext) with otelPropagator := some .TraceContext }

/-- Source `initProvider`.  Both `fmt.Errorf` values are dropped and the
function goes on. -/
def initProvider (w : World) (name url : String) (s : Proc) : Option GoError × Proc :=
  let ctx := Background
  match addAttributes w ctx name s with
  | ((res, err), s) =>
    let s := match err with
      | some e => discard (fmtErrorf "failed to create resource %w" e) s
      | none => s
    match connectToExporter w ctx url s with
    | ((traceExporter, err), s) =>
      let s := match err with
        | some e => discard (fmtErrorf "failed to connect to exporter %w" e) s
        | none => s
      (none, registerExporterWithTraceprovider w.sdk traceExporter res s)

/-- Source `Shutdown`.  The call `traceProvider.Shutdown` may return nil, return
an error, or panic (over a nil exporter). -/
def Shutdown (w : World) (s : Proc) : Proc :=
  match s.traceProvider with
  | some tp =>
    let s := s.emit (.providerShutdown tp)
    match tp.Shutdown w with
    | .panicked => RuntimePanic s
    | .returned (some err) => Fatal .std err s
    | .returned none => s
  | none => s

/-- The farewell text of `main`. -/
def farewell : String := "\ngoodbye"

/-- Source `main`, lines 28 to 49: what follows `initProvider`.  A `select` that
never resolves leaves the process running (`exit = none`). -/
def mainAfterInit (w : World) (sch : Schedule) (s : Proc) : Proc :=
  let s := s.emit .notify
  let s := s.emit .goRun
  match select sch with
  | none => s
  | some .sig => returnFromMain (Println .l farewell s)
  | some (.err (some err)) => Fatal .l err s
  | some (.err none) =>
    returnFromMain (Shutdown w s)

/-- Source `main`, from process start; `name` is the package-level service
name, declared outside `main.go`. -/
def main (w : World) (sch : Schedule) (name : String) : Proc :=
  let url := "localhost:4317"
  mainAfterInit w sch (initProvider w name url Proc.start).2

/-! ## Concrete environments -/

/-- An SDK in a process without `OTEL_` variables: the environment resource is
empty. -/
def plainSdk : Sdk :=
  { environment := Resource.Empty
    defaultResource := ⟨[("service.name", "unknown_service")], ""⟩
    onSchemaConflict := fun _ _ => Resource.Empty }

/-- An SDK in a process started with
`OTEL_RESOURCE_ATTRIBUTES=deployment.environment=prod`. -/
def prodSdk : Sdk :=
  { plainSdk with environment := ⟨[("deployment.environment", "prod")], ""⟩ }

/-- The resource `addAttributes` builds for the service name `test-service`. -/
def testResource : Resource := ⟨[("service.name", "test-service")], ""⟩

/-- An exporter over a connection to `localhost:4317`. -/
def testExporter : Exporter := ⟨some ⟨"localhost:4317"⟩⟩

/-- A collector that is reachable: every library call succeeds. -/
def upWorld : World :=
  { now := 0
    sdk := plainSdk
    resourceNew := fun _ attrs => (some ⟨attrs, ""⟩, none)
    dial := fun _ target => (some ⟨target⟩, none)
    exporterNew := fun _ conn => (some ⟨conn⟩, none)
    providerShutdown := fun _ => none }

/-- A collector that is unreachable: the blocking dial runs into the deadline. -/
def downWorld : World :=
  { upWorld with dial := fun _ _ => (none, some DeadlineExceeded) }

/-- A reachable collector whose provider fails to flush at teardown. -/
def flushFailWorld : World :=
  { upWorld with providerShutdown := fun _ => some (.base "flush failed") }

/-- A world in which building the resource fails. -/
def noResourceWorld : World :=
  { upWorld with resourceNew := fun _ _ => (none, some (.base "conflicting Schema URL")) }

/-- The operator interrupts while the application is blocked on input. -/
def interruptOnly : Schedule :=
  { interrupt := true, appResult := none, sigFirst := true }

/-- The application completes with nil and no interrupt arrives. -/
def completesNil : Schedule :=
  { interrupt := false, appResult := some none, sigFirst := false }

/-- The application fails and no interrupt arrives. -/
def completesErr : Schedule :=
  { interrupt := false, appResult := some (some (.base "read failed")), sigFirst := false }

/-- Both an interrupt and a completion arrive; the select takes the interrupt. -/
def bothSigWins : Schedule :=
  { interrupt := true, appResult := some none, sigFirst := true }

/-- Both an interrupt and a completion arrive; the select takes the completion. -/
def bothAppWins : Schedule :=
  { interrupt := true, appResult := some none, sigFirst := false }

/-- Teardown events. -/
def Event.isTeardown : Event → Bool
  | .providerShutdown _ => true
  | _ => false

/-- Events that write to a log: a printed line or a fatal message. -/
def Event.isLog : Event → Bool
  | .println _ _ => true
  | .fatal _ _ => true
  | _ => false

/-- Fatal log events. -/
def Event.isFatal : Event → Bool
  | .fatal _ _ => true
  | _ => false

/-- Registration events: the ambient provider is set. -/
def Event.isRegister : Event → Bool
  | .setTracerProvider _ => true
  | _ => false

/-- Calls into the libraries made while the provider is set up. -/
def Event.isLibraryCall : Event → Bool
  | .resourceNew _ _ => true
  | .dial _ _ _ _ => true
  | .exporterNew _ _ => true
  | .cancel => true
  | _ => false

/-- The provider that is built over an exporter handle and a resource as
instance `id`. -/
def providerFor (sdk : Sdk) (id : Nat) (h : Option Exporter) (res : Option Resource) :
    TracerProvider :=
  { id := id, sampler := .AlwaysSample, resource := Merge sdk (some sdk.environment) res,
    processors := [.simple h] }

/-- The context `connectToExporter` works under. -/
def dialContext (w : World) (ctx : Context) : Context :=
  WithTimeout ctx w.now (3 * Second)

/-- The state `initProvider` leaves behind at process start, after the library
calls `evs`: provider `tp` is registered. -/
def registered (evs : List Event) (tp : TracerProvider) : Proc :=
  { traceProvider := some tp
    otelTracerProvider := some tp
    otelPropagator := some .TraceContext
    nextId := 1
    trace := evs ++ [.setTracerProvider tp, .setTextMapPropagator .TraceContext]
    exit := none }

/-- The provider `initProvider` registers at process start. -/
def startProvider (w : World) (name url : String) : TracerProvider :=
  providerFor w.sdk 0 (connectToExporter w Background url Proc.start).1.1
    (w.resourceNew Background [(ServiceNameKey, name)]).1

/-! ## Lemmas on the setup chain -/

theorem libraryCall_not_teardown (e : Event) (h : e.isLibraryCall = true) :
    e.isTeardown = false := by
  cases e <;> simp_all [Event.isLibraryCall, Event.isTeardown]

theorem libraryCall_not_log (e : Event) (h : e.isLibraryCall = true) :
    e.isLog = false := by
  cases e <;> simp_all [Event.isLibraryCall, Event.isLog]

theorem libraryCall_not_fatal (e : Event) (h : e.isLibraryCall = true) :
    e.isFatal = false := by
  cases e <;> simp_all [Event.isLibraryCall, Event.isFatal]

theorem NewTracerProvider_eq (sdk : Sdk) (id : Nat) (h : Option Exporter)
    (res : Option Resource) :
    NewTracerProvider sdk id
      [.WithSampler .AlwaysSample, .WithResource res,
        .WithSpanProcessor (NewSimpleSpanProcessor h)] = providerFor sdk id h res := by
  rfl

theorem registerExporterWithTraceprovider_eq (sdk : Sdk) (h : Option Exporter)
    (res : Option Resource) (s : Proc) :
    registerExporterWithTraceprovider sdk h res s =
      { traceProvider := some (providerFor sdk s.nextId h res)
        otelTracerProvider := some (providerFor sdk s.nextId h res)
        otelPropagator := some .TraceContext
        nextId := s.nextId + 1
        trace := s.trace ++ [.setTracerProvider (providerFor sdk s.nextId h res),
          .setTextMapPropagator .TraceContext]
        exit := s.exit } := by
  simp [registerExporterWithTraceprovider, NewTracerProvider_eq, Proc.emit]

theorem connectToExporter_dial_failed (w : World) (ctx : Context) (url : String) (s : Proc)
    (conn : Option ClientConn) (e : GoError)
    (hd : w.dial (dialContext w ctx) url = (conn, some e)) :
    connectToExporter w ctx url s =
      ((none, some (fmtErrorf "failed to dial: %w" e)),
        { s with trace := s.trace ++ [.dial (dialContext w ctx) url true true, .cancel] }) := by
  unfold dialContext at hd
  simp [connectToExporter, dialContext, hd, Proc.emit]

theorem connectToExporter_new_failed (w : World) (ctx : Context) (url : String) (s : Proc)
    (conn : Option ClientConn) (x : Option Exporter) (e : GoError)
    (hd : w.dial (dialContext w ctx) url = (conn, none))
    (hn : w.exporterNew (dialContext w ctx) conn = (x, some e)) :
    connectToExporter w ctx url s =
      ((none, some (fmtErrorf "failed to connect: %w" e)),
        { s with trace := s.trace ++ [.dial (dialContext w ctx) url true true,
            .exporterNew (dialContext w ctx) conn, .cancel] }) := by
  unfold dialContext at hd hn
  simp [connectToExporter, dialContext, hd, hn, Proc.emit]

theorem connectToExporter_ok (w : World) (ctx : Context) (url : String) (s : Proc)
    (conn : Option ClientConn) (x : Option Exporter)
    (hd : w.dial (dialContext w ctx) url = (conn, none))
    (hn : w.exporterNew (dialContext w ctx) conn = (x, none)) :
    connectToExporter w ctx url s =
      ((x, none),
        { s with trace := s.trace ++ [.dial (dialContext w ctx) url true true,
            .exporterNew (dialContext w ctx) conn, .cancel] }) := by
  unfold dialContext at hd hn
  simp [connectToExporter, dialContext, hd, hn, Proc.emit]

/-- The state after `connectToExporter` differs from the state before it by
library calls only. -/
theorem connectToExporter_state (w : World) (ctx : Context) (url : String) (s : Proc) :
    ∃ evs, (∀ e ∈ evs, Event.isLibraryCall e = true) ∧
      (connectToExporter w ctx url s).2 = { s with trace := s.trace ++ evs } := by
  rcases hd : w.dial (dialContext w ctx) url with ⟨conn, _ | e⟩
  · rcases hn : w.exporterNew (dialContext w ctx) conn with ⟨x, _ | e⟩
    · rw [connectToExporter_ok w ctx url s conn x hd hn]
      exact ⟨_, by simp [Event.isLibraryCall], rfl⟩
    · rw [connectToExporter_new_failed w ctx url s conn x e hd hn]
      exact ⟨_, by simp [Event.isLibraryCall], rfl⟩
  · rw [connectToExporter_dial_failed w ctx url s conn e hd]
    exact ⟨_, by simp [Event.isLibraryCall], rfl⟩

/-- The result pair of `connectToExporter` does not depend on the state. -/
theorem connectToExporter_result (w : World) (ctx : Context) (url : String) (s t : Proc) :
    (connectToExporter w ctx url s).1 = (connectToExporter w ctx url t).1 := by
  rcases hd : w.dial (dialContext w ctx) url with ⟨conn, _ | e⟩
  · rcases hn : w.exporterNew (dialContext w ctx) conn with ⟨x, _ | e⟩
    · rw [connectToExporter_ok w ctx url s conn x hd hn,
        connectToExporter_ok w ctx url t conn x hd hn]
    · rw [connectToExporter_new_failed w ctx url s conn x e hd hn,
        connectToExporter_new_failed w ctx url t conn x e hd hn]
  · rw [connectToExporter_dial_failed w ctx url s conn e hd,
      connectToExporter_dial_failed w ctx url t conn e hd]

/-- Source `initProvider` with the dropped error values taken out: whatever the
two calls answer, the registration runs on their results. -/
theorem initProvider_unfold (w : World) (name url : String) (s : Proc) :
    initProvider w name url s =
      (none, registerExporterWithTraceprovider w.sdk
        (connectToExporter w Background url
          (s.emit (.resourceNew Background [(ServiceNameKey, name)]))).1.1
        (w.resourceNew Background [(ServiceNameKey, name)]).1
        (connectToExporter w Background url
          (s.emit (.resourceNew Background [(ServiceNameKey, name)]))).2) := by
  rcases hr : w.resourceNew Background [(ServiceNameKey, name)] with ⟨res, _ | e⟩ <;>
    rcases hc : connectToExporter w Background url
      (s.emit (.resourceNew Background [(ServiceNameKey, name)])) with ⟨⟨h, _ | e2⟩, s2⟩ <;>
    simp only [initProvider, addAttributes, discard, hr, hc]

/-- What `initProvider` does, whatever the libraries answer: it returns nil and
registers a provider over the handle and the resource it was given. -/
theorem initProvider_eq (w : World) (name url : String) (s : Proc) :
    ∃ evs, (∀ e ∈ evs, Event.isLibraryCall e = true) ∧
      initProvider w name url s =
        (none, registerExporterWithTraceprovider w.sdk
          (connectToExporter w Background url s).1.1
          (w.resourceNew Background [(ServiceNameKey, name)]).1
          { s with trace := s.trace ++ evs }) := by
  obtain ⟨evs, hevs, hst⟩ := connectToExporter_state w Background url
    (s.emit (.resourceNew Background [(ServiceNameKey, name)]))
  refine ⟨.resourceNew Background [(ServiceNameKey, name)] :: evs, ?_, ?_⟩
  · intro e he
    rcases List.mem_cons.mp he with rfl | he
    · rfl
    · exact hevs e he
  · rw [initProvider_unfold, hst, connectToExporter_result w Background url _ s]
    simp [Proc.emit]

theorem initProvider_start (w : World) (name url : String) :
    ∃ evs, (∀ e ∈ evs, Event.isLibraryCall e = true) ∧
      initProvider w name url Proc.start = (none, registered evs (startProvider w name url)) := by
  obtain ⟨evs, hevs, h⟩ := initProvider_eq w name url Proc.start
  refine ⟨evs, hevs, ?_⟩
  rw [h, registerExporterWithTraceprovider_eq]
  simp [registered, startProvider, Proc.start]

theorem main_start (w : World) (sch : Schedule) (name : String) :
    ∃ evs, (∀ e ∈ evs, Event.isLibraryCall e = true) ∧
      main w sch name =
        mainAfterInit w sch (registered evs (startProvider w name "localhost:4317")) := by
  obtain ⟨evs, hevs, h⟩ := initProvider_start w name "localhost:4317"
  exact ⟨evs, hevs, by simp [main, h]⟩

theorem countP_teardown_libraryCalls (evs : List Event)
    (h : ∀ e ∈ evs, Event.isLibraryCall e = true) : evs.countP Event.isTeardown = 0 := by
  rw [List.countP_eq_zero]
  intro e he
  simp [libraryCall_not_teardown e (h e he)]

theorem countP_fatal_libraryCalls (evs : List Event)
    (h : ∀ e ∈ evs, Event.isLibraryCall e = true) : evs.countP Event.isFatal = 0 := by
  rw [List.countP_eq_zero]
  intro e he
  simp [libraryCall_not_fatal e (h e he)]

theorem countP_log_libraryCalls (evs : List Event)
    (h : ∀ e ∈ evs, Event.isLibraryCall e = true) : evs.countP Event.isLog = 0 := by
  rw [List.countP_eq_zero]
  intro e he
  simp [libraryCall_not_log e (h e he)]

theorem println_not_mem_libraryCalls (evs : List Event)
    (h : ∀ e ∈ evs, Event.isLibraryCall e = true) (lg : Logger) (text : String) :
    Event.println lg text ∉ evs := by
  intro hm
  have := h _ hm
  simp [Event.isLibraryCall] at this

theorem mainAfterInit_sig (w : World) (sch : Schedule) (evs : List Event) (tp : TracerProvider)
    (hsel : select sch = some .sig) :
    mainAfterInit w sch (registered evs tp) =
      { registered evs tp with
        trace := evs ++ [.setTracerProvider tp, .setTextMapPropagator .TraceContext,
          .notify, .goRun, .println .l farewell]
        exit := some 0 } := by
  simp [mainAfterInit, hsel, registered, Proc.emit, Println, returnFromMain]

theorem mainAfterInit_err (w : World) (sch : Schedule) (evs : List Event) (tp : TracerProvider)
    (e : GoError) (hsel : select sch = some (.err (some e))) :
    mainAfterInit w sch (registered evs tp) =
      { registered evs tp with
        trace := evs ++ [.setTracerProvider tp, .setTextMapPropagator .TraceContext,
          .notify, .goRun, .fatal .l e]
        exit := some 1 } := by
  simp [mainAfterInit, hsel, registered, Proc.emit, Fatal]

/-- Over a real exporter the teardown returns what the world answers. -/
theorem Shutdown_providerFor_some (w : World) (sdk : Sdk) (id : Nat) (x : Exporter)
    (res : Option Resource) :
    (providerFor sdk id (some x) res).Shutdown w =
      .returned (w.providerShutdown (providerFor sdk id (some x) res)) := by
  simp [TracerProvider.Shutdown, providerFor, SpanProcessor.exporter]

/-- Over a nil exporter the teardown panics. -/
theorem Shutdown_providerFor_none (w : World) (sdk : Sdk) (id : Nat)
    (res : Option Resource) :
    (providerFor sdk id none res).Shutdown w = .panicked := by
  simp [TracerProvider.Shutdown, providerFor, SpanProcessor.exporter]

theorem mainAfterInit_nil_panicked (w : World) (sch : Schedule) (evs : List Event)
    (tp : TracerProvider) (hsel : select sch = some (.err none))
    (hdown : tp.Shutdown w = .panicked) :
    mainAfterInit w sch (registered evs tp) =
      { registered evs tp with
        trace := evs ++ [.setTracerProvider tp, .setTextMapPropagator .TraceContext,
          .notify, .goRun, .providerShutdown tp, .runtimePanic]
        exit := some 2 } := by
  simp [mainAfterInit, hsel, registered, Proc.emit, Shutdown, hdown, returnFromMain,
    RuntimePanic]

theorem mainAfterInit_nil_ok (w : World) (sch : Schedule) (evs : List Event)
    (tp : TracerProvider) (hsel : select sch = some (.err none))
    (hdown : tp.Shutdown w = .returned none) :
    mainAfterInit w sch (registered evs tp) =
      { registered evs tp with
        trace := evs ++ [.setTracerProvider tp, .setTextMapPropagator .TraceContext,
          .notify, .goRun, .providerShutdown tp]
        exit := some 0 } := by
  simp [mainAfterInit, hsel, registered, Proc.emit, Shutdown, hdown, returnFromMain]

theorem mainAfterInit_nil_failed (w : World) (sch : Schedule) (evs : List Event)
    (tp : TracerProvider) (e : GoError) (hsel : select sch = some (.err none))
    (hdown : tp.Shutdown w = .returned (some e)) :
    mainAfterInit w sch (registered evs tp) =
      { registered evs tp with
        trace := evs ++ [.setTracerProvider tp, .setTextMapPropagator .TraceContext,
          .notify, .goRun, .providerShutdown tp, .fatal .std e]
        exit := some 1 } := by
  simp [mainAfterInit, hsel, registered, Proc.emit, Shutdown, hdown, returnFromMain, Fatal]

/-! ## Shutdown -/

/-- C4: when no provider was ever registered (`traceProvider` is nil), any number
of calls of `Shutdown` leaves the process state as it was: no teardown is
invoked and nothing is logged (the trace is unchanged), the process is not
terminated (the exit status is unchanged) and `traceProvider` is still nil. -/
theorem Shutdown_unregistered_noop (w : World) (s : Proc) (n : Nat)
    (h : s.traceProvider = none) :
    Nat.iterate (Shutdown w) n s = s ∧
      (Nat.iterate (Shutdown w) n s).trace = s.trace ∧
      (Nat.iterate (Shutdown w) n s).exit = s.exit ∧
      (Nat.iterate (Shutdown w) n s).traceProvider = none := by
  have h1 : Shutdown w s = s := by simp [Shutdown, h]
  have hn : Nat.iterate (Shutdown w) n s = s := Function.iterate_fixed h1 n
  rw [hn]
  exact ⟨rfl, rfl, rfl, h⟩

/-- Three calls of `Shutdown` at process start, under a provider that would fail
to flush. -/
theorem Shutdown_unregistered_noop_witness :
    Proc.start.traceProvider = none ∧
      Nat.iterate (Shutdown flushFailWorld) 3 Proc.start = Proc.start :=
  ⟨rfl, (Shutdown_unregistered_noop flushFailWorld Proc.start 3 rfl).1⟩

/-- C9: when a provider `tp` is registered, `Shutdown` invokes its teardown
exactly once; when the teardown returns an error, that error is logged by the
standard logger and the process ends with code 1, with no second attempt; when
it returns nil, `Shutdown` returns with nothing logged and the process still
running as before.  (A teardown that does not return, panicking over a nil
exporter, is neither case.) -/
theorem Shutdown_registered (w : World) (s : Proc) (tp : TracerProvider)
    (h : s.traceProvider = some tp) :
    (Shutdown w s).trace.countP Event.isTeardown = s.trace.countP Event.isTeardown + 1 ∧
      (∀ err, tp.Shutdown w = .returned (some err) →
        Shutdown w s =
          { s with trace := s.trace ++ [.providerShutdown tp, .fatal .std err]
                   exit := some 1 }) ∧
      (tp.Shutdown w = .returned none →
        Shutdown w s = { s with trace := s.trace ++ [.providerShutdown tp] }) := by
  rcases hdown : tp.Shutdown w with (_ | err) | _
  · simp [Shutdown, h, hdown, Proc.emit, Event.isTeardown]
  · simp [Shutdown, h, hdown, Proc.emit, Fatal, Event.isTeardown]
  · simp [Shutdown, h, hdown, Proc.emit, RuntimePanic, Event.isTeardown]

/-- A provider over a real exporter, registered: where its teardown fails, one
teardown and one fatal message with exit code 1; where it returns nil, one
teardown and nothing else. -/
theorem Shutdown_registered_witness :
    Shutdown flushFailWorld (registered [] (providerFor plainSdk 0 (some testExporter) none)) =
        { registered [] (providerFor plainSdk 0 (some testExporter) none) with
          trace := (registered [] (providerFor plainSdk 0 (some testExporter) none)).trace ++
            [.providerShutdown (providerFor plainSdk 0 (some testExporter) none),
              .fatal .std (.base "flush failed")]
          exit := some 1 } ∧
      Shutdown upWorld (registered [] (providerFor plainSdk 0 (some testExporter) none)) =
        { registered [] (providerFor plainSdk 0 (some testExporter) none) with
          trace := (registered [] (providerFor plainSdk 0 (some testExporter) none)).trace ++
            [.providerShutdown (providerFor plainSdk 0 (some testExporter) none)] } :=
  ⟨(Shutdown_registered flushFailWorld
      (registered [] (providerFor plainSdk 0 (some testExporter) none))
      (providerFor plainSdk 0 (some testExporter) none) rfl).2.1 (.base "flush failed") rfl,
    (Shutdown_registered upWorld
      (registered [] (providerFor plainSdk 0 (some testExporter) none))
      (providerFor plainSdk 0 (some testExporter) none) rfl).2.2 rfl⟩

/-! ## The exporter connector -/

/-- C7: `connectToExporter` runs the dial and the exporter construction under
the context `WithTimeout ctx (3 * Second)` taken at call start, whose deadline
is at most (and, under a parent without deadline, exactly) 3 seconds after the
call; when the dial or the construction fails with cause `e` it returns a nil
handle and an error whose `Unwrap` is `e`; when both succeed it returns the
constructed handle and a nil error; and, the constructed handle of a
successful construction being non-nil, exactly one of handle and error is
non-nil. -/
theorem connectToExporter_contract (w : World) (ctx : Context) (url : String) (s : Proc) :
    let c := WithTimeout ctx w.now (3 * Second)
    let r := connectToExporter w ctx url s
    (∃ t, c.deadline = some t ∧ t ≤ w.now + 3000000000) ∧
      (ctx.deadline = none → c.deadline = some (w.now + 3000000000)) ∧
      (∃ rest, r.2.trace = s.trace ++ Event.dial c url true true :: rest ∧
        ∀ c2 conn, Event.exporterNew c2 conn ∈ rest → c2 = c) ∧
      (∀ conn e, w.dial c url = (conn, some e) →
        r.1.1 = none ∧ ∃ err, r.1.2 = some err ∧ err.Unwrap = some e) ∧
      (∀ conn x e, w.dial c url = (conn, none) → w.exporterNew c conn = (x, some e) →
        r.1.1 = none ∧ ∃ err, r.1.2 = some err ∧ err.Unwrap = some e) ∧
      (∀ conn x, w.dial c url = (conn, none) → w.exporterNew c conn = (x, none) →
        r.1 = (x, none)) ∧
      ((∀ conn x, w.dial c url = (conn, none) → w.exporterNew c conn = (x, none) → x ≠ none) →
        (r.1.1 ≠ none ∧ r.1.2 = none) ∨ (r.1.1 = none ∧ r.1.2 ≠ none)) := by
  intro c r
  have hc : c = dialContext w ctx := rfl
  refine ⟨?_, ?_, ?_, ?_, ?_, ?_, ?_⟩
  · show ∃ t, (WithTimeout ctx w.now (3 * Second)).deadline = some t ∧ _
    unfold WithTimeout Second
    rcases hdl : ctx.deadline with _ | cur
    · exact ⟨_, rfl, le_refl _⟩
    · by_cases hlt : cur < w.now + 3 * 1000000000
      · exact ⟨cur, by simp [hlt, hdl], by omega⟩
      · exact ⟨w.now + 3 * 1000000000, by simp [hlt], by omega⟩
  · intro hdl
    show (WithTimeout ctx w.now (3 * Second)).deadline = _
    simp [WithTimeout, hdl, Second]
  · rcases hd : w.dial c url with ⟨conn, _ | e⟩
    · rcases hn : w.exporterNew c conn with ⟨x, _ | e⟩
      · refine ⟨[.exporterNew c conn, .cancel], ?_, ?_⟩
        · show (connectToExporter w ctx url s).2.trace = _
          rw [connectToExporter_ok w ctx url s conn x (hc ▸ hd) (hc ▸ hn)]
          rfl
        · intro c2 conn2 hm
          simp at hm
          exact hm.1
      · refine ⟨[.exporterNew c conn, .cancel], ?_, ?_⟩
        · show (connectToExporter w ctx url s).2.trace = _
          rw [connectToExporter_new_failed w ctx url s conn x e (hc ▸ hd) (hc ▸ hn)]
          rfl
        · intro c2 conn2 hm
          simp at hm
          exact hm.1
    · refine ⟨[.cancel], ?_, ?_⟩
      · show (connectToExporter w ctx url s).2.trace = _
        rw [connectToExporter_dial_failed w ctx url s conn e (hc ▸ hd)]
        rfl
      · intro c2 conn2 hm
        simp at hm
  · intro conn e hd
    show (connectToExporter w ctx url s).1.1 = none ∧
      ∃ err, (connectToExporter w ctx url s).1.2 = some err ∧ _
    rw [connectToExporter_dial_failed w ctx url s conn e (hc ▸ hd)]
    exact ⟨rfl, _, rfl, rfl⟩
  · intro conn x e hd hn
    show (connectToExporter w ctx url s).1.1 = none ∧
      ∃ err, (connectToExporter w ctx url s).1.2 = some err ∧ _
    rw [connectToExporter_new_failed w ctx url s conn x e (hc ▸ hd) (hc ▸ hn)]
    exact ⟨rfl, _, rfl, rfl⟩
  · intro conn x hd hn
    show (connectToExporter w ctx url s).1 = _
    rw [connectToExporter_ok w ctx url s conn x (hc ▸ hd) (hc ▸ hn)]
  · intro hlib
    show ((connectToExporter w ctx url s).1.1 ≠ none ∧ (connectToExporter w ctx url s).1.2 = none) ∨
      ((connectToExporter w ctx url s).1.1 = none ∧ (connectToExporter w ctx url s).1.2 ≠ none)
    rcases hd : w.dial c url with ⟨conn, _ | e⟩
    · rcases hn : w.exporterNew c conn with ⟨x, _ | e⟩
      · rw [connectToExporter_ok w ctx url s conn x (hc ▸ hd) (hc ▸ hn)]
        exact Or.inl ⟨hlib conn x hd hn, rfl⟩
      · rw [connectToExporter_new_failed w ctx url s conn x e (hc ▸ hd) (hc ▸ hn)]
        exact Or.inr ⟨rfl, by simp⟩
    · rw [connectToExporter_dial_failed w ctx url s conn e (hc ▸ hd)]
      exact Or.inr ⟨rfl, by simp⟩

/-- The unreachable collector ends in a nil handle and a wrapped deadline error;
the reachable one ends in a handle and a nil error. -/
theorem connectToExporter_contract_witness :
    ((connectToExporter downWorld Background "localhost:4317" Proc.start).1.1 = none ∧
      ∃ err, (connectToExporter downWorld Background "localhost:4317" Proc.start).1.2 = some err ∧
        err.Unwrap = some DeadlineExceeded) ∧
    (((connectToExporter upWorld Background "localhost:4317" Proc.start).1.1 ≠ none ∧
        (connectToExporter upWorld Background "localhost:4317" Proc.start).1.2 = none) ∨
      ((connectToExporter upWorld Background "localhost:4317" Proc.start).1.1 = none ∧
        (connectToExporter upWorld Background "localhost:4317" Proc.start).1.2 ≠ none)) :=
  ⟨(connectToExporter_contract downWorld Background "localhost:4317" Proc.start).2.2.2.1
      none DeadlineExceeded rfl,
    (connectToExporter_contract upWorld Background "localhost:4317" Proc.start).2.2.2.2.2.2
      (fun conn x _ hn => by
        have hx : x = some ⟨conn⟩ := by
          simp only [upWorld, Prod.mk.injEq] at hn
          exact hn.1.symm
        simp [hx])⟩

/-! ## The provider registry -/

/-- Every step of the program after the registration leaves the ambient provider
and the package variable as they are. -/
theorem mainAfterInit_frame (w : World) (sch : Schedule) (t : Proc) :
    (mainAfterInit w sch t).otelTracerProvider = t.otelTracerProvider ∧
      (mainAfterInit w sch t).traceProvider = t.traceProvider := by
  unfold mainAfterInit
  rcases hsel : select sch with _ | _ | _ | e
  · simp [Proc.emit]
  · simp only [Println, returnFromMain, Proc.emit]
    split <;> simp
  · have hS : ∀ u : Proc, (Shutdown w u).otelTracerProvider = u.otelTracerProvider ∧
        (Shutdown w u).traceProvider = u.traceProvider := by
      intro u
      unfold Shutdown
      split
      · split <;> simp [Fatal, RuntimePanic, Proc.emit]
      · simp
    simp only [returnFromMain]
    split <;> simp [(hS _).1, (hS _).2, Proc.emit]
  · simp [Fatal, Proc.emit]

theorem Shutdown_frame (w : World) (t : Proc) :
    (Shutdown w t).otelTracerProvider = t.otelTracerProvider ∧
      (Shutdown w t).traceProvider = t.traceProvider := by
  unfold Shutdown
  split
  · split <;> simp [Fatal, RuntimePanic, Proc.emit]
  · simp

/-- C10, as the code has it: after `registerExporterWithTraceprovider` returns, the
package variable `traceProvider` and the ambient otel provider hold one and the
same provider, the instance allocated by this call, built with the
always-sample policy and one simple span processor over the given handle.  Its
resource is `resource.Merge(resource.Environment(), res)`: the environment
resource when `res` is nil; otherwise, the schema URLs being compatible, the
attributes of `res` together with the environment attributes under keys `res`
does not have.  The ambient propagator is the trace-context format, and
neither the rest of `main` nor `Shutdown`, from this or any later state,
replaces the ambient provider. -/
theorem registerExporterWithTraceprovider_ambient (sdk : Sdk) (h : Option Exporter)
    (res : Option Resource) (s : Proc) (w : World) (sch : Schedule) :
    let s1 := registerExporterWithTraceprovider sdk h res s
    let tp := NewTracerProvider sdk s.nextId
      [.WithSampler .AlwaysSample, .WithResource res,
        .WithSpanProcessor (NewSimpleSpanProcessor h)]
    s1.traceProvider = some tp ∧ s1.otelTracerProvider = some tp ∧
      tp.id = s.nextId ∧ s1.nextId = s.nextId + 1 ∧
      tp.sampler = .AlwaysSample ∧ tp.processors = [.simple h] ∧
      tp.resource = Merge sdk (some sdk.environment) res ∧
      (res = none → tp.resource = sdk.environment) ∧
      (∀ r, res = some r →
        (sdk.environment.schemaURL = "" ∨ r.schemaURL = "" ∨
          sdk.environment.schemaURL = r.schemaURL) →
        ∀ kv, kv ∈ tp.resource.attrs ↔
          (kv ∈ r.attrs ∨ (kv ∈ sdk.environment.attrs ∧ r.hasKey kv.1 = false))) ∧
      s1.otelPropagator = some .TraceContext ∧
      (mainAfterInit w sch s1).otelTracerProvider = some tp ∧
      (Shutdown w s1).otelTracerProvider = some tp ∧
      (∀ t : Proc, (mainAfterInit w sch t).otelTracerProvider = t.otelTracerProvider ∧
        (Shutdown w t).otelTracerProvider = t.otelTracerProvider) := by
  intro s1 tp
  have hs1 : s1 = registerExporterWithTraceprovider sdk h res s := rfl
  have htp : tp = providerFor sdk s.nextId h res := NewTracerProvider_eq sdk s.nextId h res
  rw [registerExporterWithTraceprovider_eq] at hs1
  have h1 : s1.otelTracerProvider = some tp := by rw [hs1, htp]
  have hres : tp.resource = Merge sdk (some sdk.environment) res := by rw [htp]; rfl
  refine ⟨by rw [hs1, htp], h1, by rw [htp]; rfl, by rw [hs1], by rw [htp]; rfl,
    by rw [htp]; rfl, hres, ?_, ?_, by rw [hs1], ?_, ?_, ?_⟩
  · intro hnone
    rw [hres, hnone]
    rfl
  · intro r hr hcompat kv
    rw [hres, hr]
    have hattrs : (Merge sdk (some sdk.environment) (some r)).attrs =
        sdk.environment.attrs.filter (fun kv => !r.hasKey kv.1) ++ r.attrs := by
      unfold Merge
      by_cases h1 : sdk.environment.schemaURL = ""
      · simp [h1]
      · by_cases h2 : r.schemaURL = ""
        · simp [h1, h2]
        · have h3 : sdk.environment.schemaURL = r.schemaURL := by tauto
          simp [h1, h2, h3]
    rw [hattrs, List.mem_append, List.mem_filter]
    constructor
    · rintro (⟨hm, hk⟩ | hm)
      · exact Or.inr ⟨hm, by simpa using hk⟩
      · exact Or.inl hm
    · rintro (hm | ⟨hm, hk⟩)
      · exact Or.inr hm
      · exact Or.inl ⟨hm, by simp [hk]⟩
  · rw [(mainAfterInit_frame w sch s1).1, h1]
  · rw [(Shutdown_frame w s1).1, h1]
  · exact fun t => ⟨(mainAfterInit_frame w sch t).1, (Shutdown_frame w t).1⟩

/-- Under `OTEL_RESOURCE_ATTRIBUTES=deployment.environment=prod`, the provider
registered for the resource of `test-service` carries both attributes. -/
theorem registerExporterWithTraceprovider_ambient_witness :
    (("deployment.environment", "prod") ∈
        (NewTracerProvider prodSdk 0
          [.WithSampler .AlwaysSample, .WithResource (some testResource),
            .WithSpanProcessor (NewSimpleSpanProcessor (some testExporter))]).resource.attrs) ∧
      (("service.name", "test-service") ∈
        (NewTracerProvider prodSdk 0
          [.WithSampler .AlwaysSample, .WithResource (some testResource),
            .WithSpanProcessor (NewSimpleSpanProcessor (some testExporter))]).resource.attrs) :=
  have h := (registerExporterWithTraceprovider_ambient prodSdk (some testExporter)
    (some testResource) Proc.start upWorld completesNil).2.2.2.2.2.2.2.2.1
    testResource rfl (Or.inl rfl)
  ⟨(h _).2 (Or.inr ⟨by decide, by decide⟩), (h _).2 (Or.inl (by decide))⟩

/-- C10, as stated, fails: the registered provider is not configured with the
resource it was given.  With `deployment.environment=prod` in the environment
its resource is not the given one, and for a nil resource it is not nil. -/
theorem registered_resource_not_given :
    Option.map TracerProvider.resource
        (registerExporterWithTraceprovider prodSdk (some testExporter) (some testResource)
          Proc.start).traceProvider ≠ some testResource ∧
      Option.map TracerProvider.resource
        (registerExporterWithTraceprovider plainSdk (some testExporter) none
          Proc.start).traceProvider ≠ none := by
  decide

/-! ## The termination coordinator -/

/-- C5: in a run of `main` where both an interrupt and an application result
arrive, exactly one is acted upon.  Either the interrupt branch runs: the
farewell is printed, no fatal message and no teardown happen, the process ends
with code 0 and the outcome is the same whatever the application returned.  Or
the completion branch runs: nothing is printed, and the application result is
handled (an error is logged as fatal with exit code 1, a nil result leads to
one teardown).  The two cases exclude each other. -/
theorem main_exclusive_resolution (w : World) (sch : Schedule) (name : String)
    (r : Option GoError) (hi : sch.interrupt = true) (ha : sch.appResult = some r) :
    let out := main w sch name
    (Event.println .l farewell ∈ out.trace ∧ out.trace.countP Event.isFatal = 0 ∧
        out.trace.countP Event.isTeardown = 0 ∧ out.exit = some 0 ∧
        ∀ r2, main w { sch with appResult := some r2 } name = out) ∨
      ((∀ lg text, Event.println lg text ∉ out.trace) ∧
        match r with
        | some e => Event.fatal .l e ∈ out.trace ∧ out.exit = some 1
        | none => out.trace.countP Event.isTeardown = 1) := by
  intro out
  obtain ⟨evs, hevs, hmain⟩ := main_start w sch name
  have hout : out = mainAfterInit w sch (registered evs (startProvider w name "localhost:4317")) :=
    hmain
  have hT := countP_teardown_libraryCalls evs hevs
  have hF := countP_fatal_libraryCalls evs hevs
  have hP := println_not_mem_libraryCalls evs hevs
  rcases hfirst : sch.sigFirst with _ | _
  · -- the select takes the completion
    right
    have hsel : select sch = some (.err r) := by simp [select, hi, ha, hfirst]
    rcases r with _ | e
    · rcases hdown : (startProvider w name "localhost:4317").Shutdown w with (_ | e2) | _
      · rw [hout, mainAfterInit_nil_ok w sch evs _ hsel hdown]
        refine ⟨fun lg text hm => ?_, ?_⟩
        · simp at hm
          exact hP lg text hm
        · simp [List.countP_append, hT, List.countP_cons, Event.isTeardown]
      · rw [hout, mainAfterInit_nil_failed w sch evs _ e2 hsel hdown]
        refine ⟨fun lg text hm => ?_, ?_⟩
        · simp at hm
          exact hP lg text hm
        · simp [List.countP_append, hT, List.countP_cons, Event.isTeardown]
      · rw [hout, mainAfterInit_nil_panicked w sch evs _ hsel hdown]
        refine ⟨fun lg text hm => ?_, ?_⟩
        · simp at hm
          exact hP lg text hm
        · simp [List.countP_append, hT, List.countP_cons, Event.isTeardown]
    · rw [hout, mainAfterInit_err w sch evs _ e hsel]
      refine ⟨fun lg text hm => ?_, ?_⟩
      · simp at hm
        exact hP lg text hm
      · simp
  · -- the select takes the interrupt
    left
    have hsel : select sch = some .sig := by simp [select, hi, ha, hfirst]
    refine ⟨?_, ?_, ?_, ?_, ?_⟩
    · rw [hout, mainAfterInit_sig w sch evs _ hsel]
      simp
    · rw [hout, mainAfterInit_sig w sch evs _ hsel]
      simp [List.countP_append, hF, List.countP_cons, Event.isFatal]
    · rw [hout, mainAfterInit_sig w sch evs _ hsel]
      simp [List.countP_append, hT, List.countP_cons, Event.isTeardown]
    · rw [hout, mainAfterInit_sig w sch evs _ hsel]
    · intro r2
      have hsel2 : select ⟨sch.interrupt, some r2, true⟩ = some .sig := by
        simp [select, hi]
      show main w ⟨sch.interrupt, some r2, true⟩ name = main w sch name
      simp only [main, mainAfterInit, hsel, hsel2]

/-- Both events arrive: the farewell is printed when the select takes the
interrupt, nothing is printed when it takes the completion. -/
theorem main_exclusive_resolution_witness :
    Event.println .l farewell ∈ (main upWorld bothSigWins "test-service").trace ∧
      ∀ lg text, Event.println lg text ∉ (main upWorld bothAppWins "test-service").trace := by
  refine ⟨?_, ?_⟩
  · rcases main_exclusive_resolution upWorld bothSigWins "test-service" none rfl rfl with h | h
    · exact h.1
    · exact absurd (by decide) (h.1 .l farewell)
  · rcases main_exclusive_resolution upWorld bothAppWins "test-service" none rfl rfl with h | h
    · exact absurd h.2.2.1 (by decide)
    · exact h.1

/-- C6: when the collector is reachable (the dial and the exporter construction
succeed, so a provider over the handle is registered) and the `select` resolves
with a nil application result, `main` invokes the teardown of that provider
exactly once and prints no farewell (it prints nothing at all); when that
teardown returns nil, the process ends with code 0 and nothing was logged. -/
theorem main_nil_completion (w : World) (sch : Schedule) (name : String)
    (conn : Option ClientConn) (exporter : Exporter)
    (hd : w.dial (WithTimeout Background w.now (3 * Second)) "localhost:4317" = (conn, none))
    (hn : w.exporterNew (WithTimeout Background w.now (3 * Second)) conn =
      (some exporter, none))
    (hsel : select sch = some (.err none)) :
    let tp := providerFor w.sdk 0 (some exporter)
      (w.resourceNew Background [(ServiceNameKey, name)]).1
    let out := main w sch name
    out.traceProvider = some tp ∧
      out.trace.countP Event.isTeardown = 1 ∧ Event.providerShutdown tp ∈ out.trace ∧
      Event.println .l farewell ∉ out.trace ∧ (∀ lg text, Event.println lg text ∉ out.trace) ∧
      (w.providerShutdown tp = none → out.exit = some 0 ∧ out.trace.countP Event.isLog = 0) := by
  intro tp out
  obtain ⟨evs, hevs, hmain⟩ := main_start w sch name
  have htp : startProvider w name "localhost:4317" = tp := by
    unfold startProvider
    rw [connectToExporter_ok w Background "localhost:4317" Proc.start conn (some exporter) hd hn]
  rw [htp] at hmain
  have hout : out = mainAfterInit w sch (registered evs tp) := hmain
  have hT := countP_teardown_libraryCalls evs hevs
  have hL := countP_log_libraryCalls evs hevs
  have hP := println_not_mem_libraryCalls evs hevs
  have hreal : tp.Shutdown w = .returned (w.providerShutdown tp) :=
    Shutdown_providerFor_some w w.sdk 0 exporter _
  rcases hdown : w.providerShutdown tp with _ | e
  · rw [hdown] at hreal
    rw [hout, mainAfterInit_nil_ok w sch evs tp hsel hreal]
    refine ⟨rfl, ?_, by simp, fun hm => ?_, fun lg text hm => ?_, fun _ => ⟨rfl, ?_⟩⟩
    · simp [List.countP_append, hT, List.countP_cons, Event.isTeardown]
    · simp at hm
      exact hP _ _ hm
    · simp at hm
      exact hP _ _ hm
    · simp [List.countP_append, hL, List.countP_cons, Event.isLog]
  · rw [hdown] at hreal
    rw [hout, mainAfterInit_nil_failed w sch evs tp e hsel hreal]
    refine ⟨rfl, ?_, by simp, fun hm => ?_, fun lg text hm => ?_, fun h => by simp at h⟩
    · simp [List.countP_append, hT, List.countP_cons, Event.isTeardown]
    · simp at hm
      exact hP _ _ hm
    · simp at hm
      exact hP _ _ hm

/-- The reachable collector and a nil completion: one teardown, no farewell,
exit code 0. -/
theorem main_nil_completion_witness :
    (main upWorld completesNil "test-service").trace.countP Event.isTeardown = 1 ∧
      Event.println .l farewell ∉ (main upWorld completesNil "test-service").trace ∧
      (main upWorld completesNil "test-service").exit = some 0 :=
  have h := main_nil_completion upWorld completesNil "test-service"
    (some ⟨"localhost:4317"⟩) testExporter rfl rfl rfl
  ⟨h.2.1, h.2.2.2.1, (h.2.2.2.2.2 rfl).1⟩

/-- C8, as the code has it: an interrupt taken by the `select` and a nil
completion whose teardown returns nil both end the process with code 0; an
application error and a teardown that returns an error both end it with code
1; a teardown that panics (over the nil exporter registered after a failed
connect) ends it with code 2.  So a clean end differs from a failed one, and
the outcomes within each pair are not told apart. -/
theorem main_exit_codes (w : World) (sch : Schedule) (name : String) :
    (select sch = some .sig → (main w sch name).exit = some 0) ∧
      (select sch = some (.err none) →
        (startProvider w name "localhost:4317").Shutdown w = .returned none →
        (main w sch name).exit = some 0) ∧
      (∀ e, select sch = some (.err (some e)) → (main w sch name).exit = some 1) ∧
      (∀ e, select sch = some (.err none) →
        (startProvider w name "localhost:4317").Shutdown w = .returned (some e) →
        (main w sch name).exit = some 1) ∧
      (select sch = some (.err none) →
        (startProvider w name "localhost:4317").Shutdown w = .panicked →
        (main w sch name).exit = some 2) := by
  obtain ⟨evs, _, hmain⟩ := main_start w sch name
  refine ⟨fun hsel => ?_, fun hsel hdown => ?_, fun e hsel => ?_, fun e hsel hdown => ?_,
    fun hsel hdown => ?_⟩
  · rw [hmain, mainAfterInit_sig w sch evs _ hsel]
  · rw [hmain, mainAfterInit_nil_ok w sch evs _ hsel hdown]
  · rw [hmain, mainAfterInit_err w sch evs _ e hsel]
  · rw [hmain, mainAfterInit_nil_failed w sch evs _ e hsel hdown]
  · rw [hmain, mainAfterInit_nil_panicked w sch evs _ hsel hdown]

/-- The exit codes of the outcomes: interrupt 0, normal exit 0, application error
1, failed teardown 1, and 2 for the teardown after a failed connect. -/
theorem main_exit_codes_witness :
    (main upWorld interruptOnly "test-service").exit = some 0 ∧
      (main upWorld completesNil "test-service").exit = some 0 ∧
      (main upWorld completesErr "test-service").exit = some 1 ∧
      (main flushFailWorld completesNil "test-service").exit = some 1 ∧
      (main downWorld completesNil "test-service").exit = some 2 :=
  ⟨(main_exit_codes upWorld interruptOnly "test-service").1 rfl,
    (main_exit_codes upWorld completesNil "test-service").2.1 rfl rfl,
    (main_exit_codes upWorld completesErr "test-service").2.2.1 _ rfl,
    (main_exit_codes flushFailWorld completesNil "test-service").2.2.2.1 _ rfl rfl,
    (main_exit_codes downWorld completesNil "test-service").2.2.2.2 rfl rfl⟩

/-- C8, as stated, fails: the exit codes of the four outcomes (normal exit,
operator interrupt, application error, teardown failure) are not pairwise
distinct. -/
theorem exit_codes_not_distinct :
    ¬ List.Nodup
      [(main upWorld completesNil "test-service").exit,
        (main upWorld interruptOnly "test-service").exit,
        (main upWorld completesErr "test-service").exit,
        (main flushFailWorld completesNil "test-service").exit] := by
  decide

/-! ## Where the code departs from its contract -/

/-- C1: with a provider registered, the interrupt path ends the process with
code 0 and the error path ends it with code 1, and on neither was the
provider's teardown invoked; the nil-completion path does invoke it. -/
theorem main_exits_without_teardown :
    ((main upWorld interruptOnly "test-service").traceProvider ≠ none ∧
        (main upWorld interruptOnly "test-service").exit = some 0 ∧
        (main upWorld interruptOnly "test-service").trace.countP Event.isTeardown = 0) ∧
      ((main upWorld completesErr "test-service").traceProvider ≠ none ∧
        (main upWorld completesErr "test-service").exit = some 1 ∧
        (main upWorld completesErr "test-service").trace.countP Event.isTeardown = 0) ∧
      (main upWorld completesNil "test-service").trace.countP Event.isTeardown = 1 := by
  decide

/-- C2: with the collector unreachable, `connectToExporter` fails with a wrapped
deadline error, and `initProvider` still registers a provider, built over the
nil handle: `traceProvider` and the ambient provider are set when it returns. -/
theorem initProvider_registers_after_failed_connect :
    (connectToExporter downWorld Background "localhost:4317" Proc.start).1 =
        (none, some (fmtErrorf "failed to dial: %w" DeadlineExceeded)) ∧
      (initProvider downWorld "test-service" "localhost:4317" Proc.start).2.traceProvider =
        some (providerFor plainSdk 0 none (some ⟨[("service.name", "test-service")], ""⟩)) ∧
      (initProvider downWorld "test-service" "localhost:4317" Proc.start).2.otelTracerProvider =
        some (providerFor plainSdk 0 none (some ⟨[("service.name", "test-service")], ""⟩)) ∧
      (initProvider downWorld "test-service" "localhost:4317" Proc.start).2.trace.countP
        Event.isRegister = 1 := by
  decide

/-- C3: when building the resource fails, and when connecting fails, `initProvider`
returns a nil error and writes nothing to any log. -/
theorem initProvider_drops_errors :
    ((addAttributes noResourceWorld Background "test-service" Proc.start).1.2 ≠ none ∧
        (initProvider noResourceWorld "test-service" "localhost:4317" Proc.start).1 = none ∧
        (initProvider noResourceWorld "test-service" "localhost:4317" Proc.start).2.trace.countP
          Event.isLog = 0) ∧
      ((connectToExporter downWorld Background "localhost:4317" Proc.start).1.2 ≠ none ∧
        (initProvider downWorld "test-service" "localhost:4317" Proc.start).1 = none ∧
        (initProvider downWorld "test-service" "localhost:4317" Proc.start).2.trace.countP
          Event.isLog = 0) := by
  decide

end TracingPoC
